import Mathlib

/-!
Shallow embedding of the retrieval-augmented turn pipeline of the
heygen-avatar repository, together with proofs about the claims of its
specification.

Strings that matter only for equality are modelled as Lean `String`;
strings whose character length or slicing matters (the retrieval context,
the chunker input) are modelled as `List Char`, matching the
per-code-unit `slice`/`length` of JavaScript on the BMP text used by the program.
Scores are rationals (`ℚ`), an exact model of the float comparisons the
code performs against the constant threshold `0.1`.
-/

namespace HeygenAvatar

/-- JavaScript `String.prototype.trim`: drop leading and trailing
whitespace. -/
def jsTrim (l : List Char) : List Char :=
  ((l.dropWhile Char.isWhitespace).reverse.dropWhile Char.isWhitespace).reverse

/-- JavaScript `a || b` on strings: `a` when present and non-empty
(truthy), otherwise `b`. -/
def jsOrStr (a : Option String) (b : String) : String :=
  match a with
  | some s => if s = "" then b else s
  | none => b

/-! ## Retrieval endpoint: `src/app/api/knowledge-search/route.ts` -/

/-- A raw Pinecone match as consumed by the route: `score` and the
metadata fields may each be absent. -/
structure PineconeMatch where
  score : Option ℚ
  text : Option (List Char)
  source : Option (List Char)
deriving DecidableEq

/-- A formatted knowledge item (`knowledgeItems` entry in the route):
missing fields defaulted per `match.score || 0`,
`(match.metadata?.text as string) || ""`,
`(match.metadata?.source as string) || "unknown"`. -/
structure KnowledgeItem where
  score : ℚ
  text : List Char
  source : List Char
deriving DecidableEq

/-- The `topK` passed to `index.query` in the route. -/
def queryTopK : Nat := 3

/-- The relevance threshold used by the filter `item.score > 0.1` in the route. -/
def scoreThreshold : ℚ := 1 / 10

/-- The hard cutoff applied by `context.slice(0, 500)`. -/
def maxContextLen : Nat := 500

/-- Formatting of one Pinecone match into a knowledge item, with the
JavaScript `||` defaults of the route. -/
def toKnowledgeItem (m : PineconeMatch) : KnowledgeItem where
  score := m.score.getD 0
  text := m.text.getD []
  source :=
    match m.source with
    | some s => if s = [] then "unknown".toList else s
    | none => "unknown".toList

/-- The positional marker the route prefixes to the `index`-th surviving
match: `\n\n【参考情報${index + 1}】: `. -/
def marker (idx : Nat) : List Char :=
  ("\n\n【参考情報" ++ toString (idx + 1) ++ "】: ").toList

/-- The context construction of the route: filter by score, prefix markers
in order, and join with a newline separator. -/
def buildContext (items : List KnowledgeItem) : List Char :=
  List.intercalate ['\n']
    ((items.filter (fun it => scoreThreshold < it.score)).mapIdx
      (fun idx it => marker idx ++ it.text))

/-- The JSON body the route responds with, together with the HTTP status. -/
structure KSResponse where
  status : Nat
  success : Bool
  context : List Char
  sources : Option (List KnowledgeItem)
  error : Option String
deriving DecidableEq

/-- Outcome of the two outbound calls of the route: the embedding request can
throw, the vector query can throw, or both succeed with a list of
matches. -/
inductive KSOutcome where
  | embedError
  | storeError
  | ok (found : List PineconeMatch)
deriving DecidableEq

/-- The `POST` handler of `src/app/api/knowledge-search/route.ts`,
returning the response together with the number of outbound network
calls made (embedding call and vector-store call). -/
def knowledgeSearchPOST (keysPresent : Bool) (query : List Char)
    (outcome : KSOutcome) : KSResponse × Nat :=
  if keysPresent = false then
    (⟨200, false, [], none, some "API keys not configured"⟩, 0)
  else if jsTrim query = [] then
    (⟨200, false, [], none, none⟩, 0)
  else
    match outcome with
    | .embedError => (⟨200, false, [], none, some "embedding error"⟩, 1)
    | .storeError => (⟨200, false, [], none, some "store error"⟩, 2)
    | .ok ms =>
        let items := ms.map toKnowledgeItem
        (⟨200, true, (buildContext items).take maxContextLen, some items, none⟩, 2)

/-! ## Chunker: `splitText` in `src/scripts/setup-pinecone-data copy.js`

The JavaScript loop

```
let i = 0;
while (i < text.length) {
  const chunk = text.slice(i, i + size).trim();
  if (chunk) chunks.push(chunk);
  i += size - overlap;
}
```

is embedded with an explicit iteration budget: `splitTextFuel fuel …`
returns `some chunks` when the loop exits within `fuel` iterations and
`none` when the budget runs out with the loop guard still true.  The
JavaScript function is the limit over all budgets; in particular it
diverges exactly when every budget yields `none`.  (For `size ≤ overlap`
the JavaScript index stays at or below its current value forever, so the
guard never becomes false; the `Nat` model keeps it stationary, with the
same guard behaviour.) -/

/-- One budgeted run of the `splitText` loop from loop index `i` with
accumulated chunks `acc`. -/
def splitTextFuel (text : List Char) (size overlap : Nat) :
    Nat → Nat → List (List Char) → Option (List (List Char))
  | 0, i, acc => if i < text.length then none else some acc
  | fuel + 1, i, acc =>
      if i < text.length then
        let c := jsTrim ((text.drop i).take size)
        splitTextFuel text size overlap fuel (i + (size - overlap))
          (if c = [] then acc else acc ++ [c])
      else some acc

/-- `splitText(text, size, overlap)`: for a valid configuration the loop
needs at most `text.length` iterations (the index advances by at least
one each time), so that budget is sufficient. -/
def splitText (text : List Char) (size overlap : Nat) : List (List Char) :=
  (splitTextFuel text size overlap text.length 0 []).getD []

/-- The `splitText` loop never terminates on this input: every iteration
budget is exhausted with the loop guard still true. -/
def splitTextDiverges (text : List Char) (size overlap : Nat) : Prop :=
  ∀ fuel, splitTextFuel text size overlap fuel 0 [] = none

/-! ## Text-mode turn: `handleSend` in
`src/components/AvatarSession/TextInput.tsx` -/

/-- The task type selector of the text input. -/
inductive TaskTy where
  | TALK
  | REPEAT
deriving DecidableEq

/-- The task mode selector of the text input. -/
inductive TaskMode where
  | SYNC
  | ASYNC
deriving DecidableEq

/-- Outcome of the `fetch` to `/api/knowledge-search` inside the
`searchKnowledge` helper of the component: the request can throw, or deliver a body
with `success` and `context`. -/
inductive SearchOutcome where
  | fetchError
  | response (success : Bool) (context : String)
deriving DecidableEq

/-- The `searchKnowledge` helper of the component: returns `data.context` when
`data.success && data.context` is truthy, the empty string otherwise, and when
the fetch throws (its own `catch`) it also returns the empty string. -/
def searchKnowledge (o : SearchOutcome) : String :=
  match o with
  | .fetchError => ""
  | .response success context =>
      if success = true ∧ context ≠ "" then context else ""

/-- A message handed to the outbound channel, tagged with which of the
four send functions carried it. -/
structure SentMessage where
  task : TaskTy
  mode : TaskMode
  text : String
deriving DecidableEq

/-- The `handleSend` callback: `none` when the trimmed message is empty
(nothing sent); otherwise the single outbound message, augmented with
the retrieved context only in TALK mode when the context is non-empty. -/
def handleSend (message : String) (taskType : TaskTy) (taskMode : TaskMode)
    (outcome : SearchOutcome) : Option SentMessage :=
  if jsTrim message.toList = [] then none
  else
    let finalMessage :=
      if taskType = TaskTy.TALK then
        let knowledgeContext := searchKnowledge outcome
        if knowledgeContext ≠ "" then
          message ++ "\n\n以下の情報を参考にしてください:\n" ++ knowledgeContext
        else message
      else message
    some ⟨taskType, taskMode, finalMessage⟩

/-! ## Turn orchestration: event handlers installed by `startSessionV2`
in the interactive-avatar component (`src/unnamed/part_000`)

The handlers share one mutable reference `lastUserMessageRef` (the
buffered utterance) and run on a single-threaded event loop.  The
`USER_STOP` handler captures the buffer, awaits `searchKnowledge`, and —
when the returned context is non-empty — awaits `avatar.speak` with the
prefixed context; the suspension lets later events interleave, so the
delivery of a retrieval response is modelled as its own event.  The
`USER_END_MESSAGE` handler also awaits `searchKnowledge` but discards
the result (it only logs), so only the invocation itself is observable.

Logical turns are numbered by `USER_START` events.  `lastRetrievalTurn`
records the highest turn that has invoked retrieval so far; a speak that
is applied while `lastRetrievalTurn` exceeds the originating turn is a
stale application in the sense of the ordering
guarantee of the specification. -/

/-- A `USER_STOP` retrieval call still in flight: the turn it was issued
in and the query it carried. -/
structure PendingReq where
  turn : Nat
  query : String
deriving DecidableEq

/-- One application of a retrieval result (`avatar.speak`), recording
the originating turn and the highest turn that had already invoked
retrieval at the moment of application. -/
structure SpeakRecord where
  originTurn : Nat
  lastRetrievalAtApply : Nat
  text : String
deriving DecidableEq

/-- The observable per-session state of the orchestration handlers. -/
structure OrchState where
  buffer : String
  turnSeq : Nat
  lastRetrievalTurn : Nat
  pending : List PendingReq
  invocations : List (Nat × String)
  spoken : List SpeakRecord
deriving DecidableEq

/-- Session state right after `startSessionV2` installed the handlers. -/
def initOrch : OrchState := ⟨"", 0, 0, [], [], []⟩

/-- Events consumed (or async completions resumed) by the handlers.
`userTalkingMessage` and `userEndMessage` carry the optional payload
keys the handlers probe (`detail.message`, `detail.text`, and for
end-of-message also `event.message`).  `deliverStopResult i ctx` resumes
the `i`-th in-flight `USER_STOP` retrieval with context `ctx`
(`searchKnowledge` yields the empty string on failure or no knowledge). -/
inductive SessionEv where
  | userStart
  | userTalkingMessage (dMsg dText : Option String)
  | userStop
  | userEndMessage (dMsg dText eMsg : Option String)
  | deliverStopResult (i : Nat) (ctx : String)
deriving DecidableEq

/-- One step of the installed handlers, with `isVoice` the closure flag
of `startSessionV2`. -/
def stepEv (isVoice : Bool) (s : OrchState) (e : SessionEv) : OrchState :=
  match e with
  | .userStart =>
      { s with buffer := "", turnSeq := s.turnSeq + 1 }
  | .userTalkingMessage dMsg dText =>
      let message := jsOrStr dMsg (jsOrStr dText "")
      if message ≠ "" then { s with buffer := message } else s
  | .userStop =>
      if isVoice = true ∧ s.buffer ≠ "" then
        { s with
          invocations := s.invocations ++ [(s.turnSeq, s.buffer)],
          pending := s.pending ++ [⟨s.turnSeq, s.buffer⟩],
          lastRetrievalTurn := max s.lastRetrievalTurn s.turnSeq }
      else s
  | .userEndMessage dMsg dText eMsg =>
      let userMessage := jsOrStr dMsg (jsOrStr dText (jsOrStr eMsg s.buffer))
      if userMessage ≠ "" ∧ isVoice = true then
        { s with
          invocations := s.invocations ++ [(s.turnSeq, userMessage)],
          lastRetrievalTurn := max s.lastRetrievalTurn s.turnSeq }
      else s
  | .deliverStopResult i ctx =>
      match s.pending[i]? with
      | none => s
      | some p =>
          { s with
            pending := s.pending.eraseIdx i,
            spoken :=
              if ctx ≠ "" then
                s.spoken ++ [⟨p.turn, s.lastRetrievalTurn, "\n\n【参考情報】: " ++ ctx⟩]
              else s.spoken }

/-- Run the handlers over a whole event interleaving. -/
def runEvents (isVoice : Bool) (es : List SessionEv) : OrchState :=
  es.foldl (stepEv isVoice) initOrch

/-- Descending-score order between knowledge items. -/
def scoreDesc (a b : KnowledgeItem) : Prop := b.score ≤ a.score

instance : DecidableRel scoreDesc := fun a b =>
  inferInstanceAs (Decidable (b.score ≤ a.score))

/-- Two store matches in descending order, the second below the
threshold: concrete input for the claim C6 witness. -/
def c6Matches : List PineconeMatch :=
  [⟨some (9/10), some ("X is ...".toList), some ("doc.txt".toList)⟩,
   ⟨some (1/20), some ("noise".toList), none⟩]

/-- Event interleaving for claim C1: one voice turn in which both
commit events (utterance stop, then end of message) fire. -/
def c1Trace : List SessionEv :=
  [SessionEv.userStart, SessionEv.userTalkingMessage (some "hello") none,
   SessionEv.userStop, SessionEv.userEndMessage none none none]

/-- Event interleaving for claim C2: turn 2 commits and starts its own
retrieval before the retrieval response of turn 1 arrives; the response
of turn 1 is then delivered. -/
def c2Trace : List SessionEv :=
  [SessionEv.userStart, SessionEv.userTalkingMessage (some "alpha") none,
   SessionEv.userStop, SessionEv.userStart,
   SessionEv.userTalkingMessage (some "beta") none, SessionEv.userStop,
   SessionEv.deliverStopResult 0 "ctx"]

/-- Concrete session state for the claim C2 witness: turn 2 has already
invoked retrieval while the request of turn 1 is still in flight. -/
def c2State : OrchState :=
  ⟨"beta", 2, 2, [⟨1, "alpha"⟩], [(1, "alpha"), (2, "beta")], []⟩

/-! ## Theorems -/

/-- Claim C3: for every query that is empty or whitespace-only, the
retrieval endpoint returns success `false` with an empty context, HTTP
status 200, and makes no network call — whether or not the API keys are
configured. -/
theorem empty_query_short_circuits (keysPresent : Bool) (query : List Char)
    (outcome : KSOutcome) (hq : jsTrim query = []) :
    (knowledgeSearchPOST keysPresent query outcome).1.success = false ∧
    (knowledgeSearchPOST keysPresent query outcome).1.context = [] ∧
    (knowledgeSearchPOST keysPresent query outcome).1.status = 200 ∧
    (knowledgeSearchPOST keysPresent query outcome).2 = 0 := by
  cases keysPresent <;> simp [knowledgeSearchPOST, hq]

/-- Claim C3 witness: the whitespace-only query made of three spaces. -/
theorem empty_query_short_circuits_witness :
    (knowledgeSearchPOST true ("   ".toList) (KSOutcome.ok [])).1.success = false ∧
    (knowledgeSearchPOST true ("   ".toList) (KSOutcome.ok [])).1.context = [] ∧
    (knowledgeSearchPOST true ("   ".toList) (KSOutcome.ok [])).1.status = 200 ∧
    (knowledgeSearchPOST true ("   ".toList) (KSOutcome.ok [])).2 = 0 :=
  empty_query_short_circuits true ("   ".toList) (KSOutcome.ok []) (by decide)

/-- Claim C4: for every internal failure during retrieval (the embedding
call or the vector-store call throwing), the endpoint responds with
success `false`, an empty context, and HTTP status 200. -/
theorem internal_failure_soft_response (query : List Char) (outcome : KSOutcome)
    (hq : jsTrim query ≠ [])
    (hfail : outcome = KSOutcome.embedError ∨ outcome = KSOutcome.storeError) :
    (knowledgeSearchPOST true query outcome).1.success = false ∧
    (knowledgeSearchPOST true query outcome).1.context = [] ∧
    (knowledgeSearchPOST true query outcome).1.status = 200 := by
  rcases hfail with h | h <;> subst h <;> simp [knowledgeSearchPOST, hq]

/-- Claim C4 witness: an embedding failure on the query "q". -/
theorem internal_failure_soft_response_witness :
    (knowledgeSearchPOST true ("q".toList) KSOutcome.embedError).1.success = false ∧
    (knowledgeSearchPOST true ("q".toList) KSOutcome.embedError).1.context = [] ∧
    (knowledgeSearchPOST true ("q".toList) KSOutcome.embedError).1.status = 200 :=
  internal_failure_soft_response ("q".toList) KSOutcome.embedError (by decide)
    (Or.inl rfl)

/-- Claim C5: for every query and every outcome of the outbound calls,
the context string in the response of the retrieval endpoint has length
at most 500 characters. -/
theorem context_length_bounded (keysPresent : Bool) (query : List Char)
    (outcome : KSOutcome) :
    (knowledgeSearchPOST keysPresent query outcome).1.context.length ≤ 500 := by
  cases keysPresent
  · simp [knowledgeSearchPOST]
  · by_cases hq : jsTrim query = []
    · simp [knowledgeSearchPOST, hq]
    · cases outcome <;>
        simp [knowledgeSearchPOST, hq, maxContextLen, List.length_take]

/-- Claim C6: in a successful retrieval, every knowledge item that
contributes to the context passes the threshold filter (so no item with
score below 0.1 contributes), the surviving items keep the
descending-score order of the store results, and the returned context is
exactly the marker-prefixed concatenation of the surviving items (then
hard-truncated). -/
theorem context_only_above_threshold (query : List Char)
    (ms : List PineconeMatch) (hq : jsTrim query ≠ [])
    (hsorted : (ms.map toKnowledgeItem).Pairwise scoreDesc) :
    (∀ it ∈ (ms.map toKnowledgeItem).filter
        (fun it => scoreThreshold < it.score),
      scoreThreshold < it.score ∧ ¬ it.score < scoreThreshold) ∧
    ((ms.map toKnowledgeItem).filter
        (fun it => scoreThreshold < it.score)).Pairwise scoreDesc ∧
    (knowledgeSearchPOST true query (KSOutcome.ok ms)).1.context =
      (List.intercalate ['\n']
        (((ms.map toKnowledgeItem).filter
            (fun it => scoreThreshold < it.score)).mapIdx
          (fun idx it => marker idx ++ it.text))).take maxContextLen := by
  refine ⟨?_, ?_, ?_⟩
  · intro it hit
    have h := of_decide_eq_true (List.mem_filter.mp hit).2
    exact ⟨h, not_lt_of_gt h⟩
  · exact hsorted.sublist (List.filter_sublist _)
  · simp [knowledgeSearchPOST, hq, buildContext]

/-- Claim C6 witness: on `c6Matches` only the first match contributes to
the context. -/
theorem context_only_above_threshold_witness :
    (∀ it ∈ (c6Matches.map toKnowledgeItem).filter
        (fun it => scoreThreshold < it.score),
      scoreThreshold < it.score ∧ ¬ it.score < scoreThreshold) ∧
    ((c6Matches.map toKnowledgeItem).filter
        (fun it => scoreThreshold < it.score)).Pairwise scoreDesc ∧
    (knowledgeSearchPOST true ("q".toList) (KSOutcome.ok c6Matches)).1.context =
      (List.intercalate ['\n']
        (((c6Matches.map toKnowledgeItem).filter
            (fun it => scoreThreshold < it.score)).mapIdx
          (fun idx it => marker idx ++ it.text))).take maxContextLen :=
  context_only_above_threshold ("q".toList) c6Matches (by decide)
    (by norm_num [c6Matches, List.pairwise_cons, scoreDesc, toKnowledgeItem])

/-- Claim C10: in every successful retrieval response, the sources array
is exactly the list of all store matches formatted with defaults — one
entry per match, regardless of its score — a fully absent match defaults
to score 0, empty text and source unknown, and the store is asked for at
most `queryTopK = 3` matches. -/
theorem sources_contain_all_matches (query : List Char)
    (ms : List PineconeMatch) (hq : jsTrim query ≠ []) :
    (knowledgeSearchPOST true query (KSOutcome.ok ms)).1.sources =
      some (ms.map toKnowledgeItem) ∧
    (ms.map toKnowledgeItem).length = ms.length ∧
    toKnowledgeItem ⟨none, none, none⟩ = ⟨0, [], "unknown".toList⟩ ∧
    queryTopK = 3 := by
  refine ⟨by simp [knowledgeSearchPOST, hq], by simp, rfl, rfl⟩

/-- Claim C10 witness: a single match below the threshold, with all
fields missing, still appears in the sources array (defaulted). -/
theorem sources_contain_all_matches_witness :
    (knowledgeSearchPOST true ("q".toList)
        (KSOutcome.ok [⟨none, none, none⟩])).1.sources =
      some (([⟨none, none, none⟩] : List PineconeMatch).map toKnowledgeItem) ∧
    (([⟨none, none, none⟩] : List PineconeMatch).map toKnowledgeItem).length =
      ([⟨none, none, none⟩] : List PineconeMatch).length ∧
    toKnowledgeItem ⟨none, none, none⟩ = ⟨0, [], "unknown".toList⟩ ∧
    queryTopK = 3 :=
  sources_contain_all_matches ("q".toList) [⟨none, none, none⟩] (by decide)

/-- Claim C9: for every text-mode TALK turn with a non-blank message, if
the retrieval call fails or returns an empty context the original
message is sent unmodified, and if retrieval succeeds with a non-empty
context the outgoing message is the original text with the context
appended under the reference-material label. -/
theorem text_turn_keeps_original_message (message : String)
    (taskMode : TaskMode) (outcome : SearchOutcome)
    (hm : jsTrim message.toList ≠ []) :
    (searchKnowledge outcome = "" →
      handleSend message TaskTy.TALK taskMode outcome =
        some ⟨TaskTy.TALK, taskMode, message⟩) ∧
    (∀ c : String, c ≠ "" → outcome = SearchOutcome.response true c →
      handleSend message TaskTy.TALK taskMode outcome =
        some ⟨TaskTy.TALK, taskMode,
          message ++ "\n\n以下の情報を参考にしてください:\n" ++ c⟩) := by
  have hm2 : ¬ jsTrim message.data = [] := by
    simpa [String.toList] using hm
  constructor
  · intro h
    simp [handleSend, hm2, h]
  · intro c hc h
    subst h
    simp [handleSend, hm2, searchKnowledge, hc]

/-- Claim C9 witness: the message "hi" with a successful retrieval whose
context is "K" goes out augmented. -/
theorem text_turn_keeps_original_message_witness :
    handleSend "hi" TaskTy.TALK TaskMode.ASYNC (SearchOutcome.response true "K") =
      some ⟨TaskTy.TALK, TaskMode.ASYNC,
        "hi" ++ "\n\n以下の情報を参考にしてください:\n" ++ "K"⟩ :=
  (text_turn_keeps_original_message "hi" TaskMode.ASYNC
    (SearchOutcome.response true "K") (by decide)).2 "K" (by decide) rfl

/-- Once the loop index has reached the text length, the `splitText`
loop exits immediately with the accumulated chunks, whatever the
remaining budget. -/
theorem splitTextFuel_done (text : List Char) (size overlap fuel i : Nat)
    (acc : List (List Char)) (h : ¬ i < text.length) :
    splitTextFuel text size overlap fuel i acc = some acc := by
  cases fuel <;> simp [splitTextFuel, h]

/-- With a valid configuration the index advances by at least one per
iteration, so any budget covering the remaining distance is enough for
the loop to exit. -/
theorem splitTextFuel_ne_none (text : List Char) (size overlap : Nat)
    (hso : overlap < size) :
    ∀ fuel i acc, text.length ≤ i + fuel →
      splitTextFuel text size overlap fuel i acc ≠ none := by
  intro fuel
  induction fuel with
  | zero =>
      intro i acc hle
      have h : ¬ i < text.length := by omega
      simp [splitTextFuel, h]
  | succ n ih =>
      intro i acc hle
      by_cases h : i < text.length
      · have hstride : 1 ≤ size - overlap := by omega
        simp only [splitTextFuel, if_pos h]
        exact ih (i + (size - overlap)) _ (by omega)
      · simp [splitTextFuel, h]

/-- With size 1 and overlap 1 the stride is zero: the loop index stays
at 0 forever on a one-character text, whatever the budget. -/
theorem splitTextFuel_stuck (fuel : Nat) :
    ∀ acc, splitTextFuel ['a'] 1 1 fuel 0 acc = none := by
  induction fuel with
  | zero => intro acc; simp [splitTextFuel]
  | succ n ih =>
      intro acc
      have hc : jsTrim (((['a'] : List Char).drop 0).take 1) = ['a'] := by decide
      simp only [splitTextFuel, hc]
      simpa using ih (acc ++ [['a']])

/-- Claim C7: the chunker has no fail-fast precondition check — called
with size 1 and overlap 1 (violating size > overlap) on the text "a",
the loop never terminates: every iteration budget is exhausted with the
loop guard still true, instead of an invalid-configuration error being
raised. -/
theorem splitText_invalid_config_diverges : splitTextDiverges ['a'] 1 1 :=
  fun fuel => splitTextFuel_stuck fuel []

/-- Claim C8 counterexample: the text "hello" is shorter than the chunk
size 10 with valid overlap 8, yet chunking yields three chunks, not
exactly one chunk equal to the whole trimmed text. -/
theorem short_text_not_single_chunk :
    ("hello".toList.length < 10 ∧ 8 < 10) ∧
    splitText ("hello".toList) 10 8 ≠ [jsTrim ("hello".toList)] ∧
    (splitText ("hello".toList) 10 8).length = 3 := by decide

/-- Claim C8 (amended): with valid size > overlap ≥ 0, an input whose
length is at most the stride (size minus overlap) and whose trimmed
content is non-empty yields exactly one chunk: the whole trimmed text. -/
theorem short_text_single_chunk (text : List Char) (size overlap : Nat)
    (hso : overlap < size) (hlen : text.length ≤ size - overlap)
    (ht : jsTrim text ≠ []) :
    splitText text size overlap = [jsTrim text] := by
  have htext : text ≠ [] := by
    intro h
    exact ht (by simp [h, jsTrim])
  obtain ⟨n, hn⟩ : ∃ n, text.length = n + 1 :=
    ⟨text.length - 1, by
      have := List.length_pos.mpr htext
      omega⟩
  have htake : text.take size = text :=
    List.take_of_length_le (by omega)
  have hguard : 0 < text.length := by omega
  have hdone : ¬ size - overlap < text.length := by omega
  unfold splitText
  rw [hn]
  simp only [splitTextFuel, if_pos (hn ▸ hguard), List.drop_zero, htake,
    if_neg ht, List.nil_append, Nat.zero_add]
  rw [splitTextFuel_done text size overlap n (size - overlap) [jsTrim text]
    hdone]
  simp [hguard]

/-- Claim C8 (amended) witness: the text "hi" with size 5 and overlap 2
yields the single chunk "hi". -/
theorem short_text_single_chunk_witness :
    splitText ("hi".toList) 5 2 = [jsTrim ("hi".toList)] :=
  short_text_single_chunk ("hi".toList) 5 2 (by decide) (by decide) (by decide)

/-- The JavaScript fallback chain preserves non-emptiness: if the final
fallback is non-empty, the whole chain is non-empty. -/
theorem jsOrStr_ne_empty (a : Option String) (b : String) (hb : b ≠ "") :
    jsOrStr a b ≠ "" := by
  cases a with
  | none => simpa [jsOrStr] using hb
  | some s =>
      by_cases hs : s = "" <;> simp [jsOrStr, hs, hb]

/-- Claim C1 counterexample: on the interleaving of `c1Trace` — one
voice turn whose message "hello" was captured, with the utterance-stop
event followed by the end-of-message event — the Retrieval Service is
invoked twice for the turn, not exactly once. -/
theorem retrieval_invoked_twice_on_c1Trace :
    (runEvents true c1Trace).invocations = [(1, "hello"), (1, "hello")] ∧
    (runEvents true c1Trace).invocations.length ≠ 1 := by decide

/-- Claim C1 (amended): for every voice turn whose captured message is
non-empty, when the utterance-stop event and then the end-of-message
event fire for the turn, the Retrieval Service is invoked exactly twice
— once by each handler; no per-turn processed flag short-circuits the
second trigger. -/
theorem stop_then_end_message_invokes_twice (m : String)
    (dMsg dText eMsg : Option String) (hm : m ≠ "") :
    (runEvents true [SessionEv.userStart,
      SessionEv.userTalkingMessage (some m) none, SessionEv.userStop,
      SessionEv.userEndMessage dMsg dText eMsg]).invocations.length = 2 := by
  have h1 : jsOrStr eMsg m ≠ "" := jsOrStr_ne_empty eMsg m hm
  have h2 : jsOrStr dText (jsOrStr eMsg m) ≠ "" := jsOrStr_ne_empty _ _ h1
  have h3 : jsOrStr dMsg (jsOrStr dText (jsOrStr eMsg m)) ≠ "" :=
    jsOrStr_ne_empty _ _ h2
  have hb : jsOrStr (some m) (jsOrStr none "") = m := by simp [jsOrStr, hm]
  simp [runEvents, stepEv, initOrch, hb, hm, h3]

/-- Claim C1 (amended) witness: the voice turn with captured message
"hello" and no payload on the end-of-message event. -/
theorem stop_then_end_message_invokes_twice_witness :
    (runEvents true [SessionEv.userStart,
      SessionEv.userTalkingMessage (some "hello") none, SessionEv.userStop,
      SessionEv.userEndMessage none none none]).invocations.length = 2 :=
  stop_then_end_message_invokes_twice "hello" none none none (by decide)

/-- Claim C2 counterexample: on the interleaving of `c2Trace`, the
retrieval result of turn 1 arrives after turn 2 has committed and
started its own retrieval, and it is still applied (spoken to the
avatar): a stale result is not dropped. -/
theorem stale_result_applied_on_c2Trace :
    (runEvents true c2Trace).spoken = [⟨1, 2, "\n\n【参考情報】: ctx"⟩] ∧
    ∃ r ∈ (runEvents true c2Trace).spoken,
      r.originTurn < r.lastRetrievalAtApply := by decide

/-- Claim C2 (amended): whenever the retrieval response of an in-flight
USER_STOP request arrives with a non-empty context, it is sent to the
avatar unconditionally — in whatever session state, with no comparison
of the originating turn against the current turn sequence number — so
stale results are applied rather than dropped. -/
theorem nonempty_result_always_applied (s : OrchState) (i : Nat)
    (ctx : String) (p : PendingReq) (hp : s.pending[i]? = some p)
    (hc : ctx ≠ "") :
    (stepEv true s (SessionEv.deliverStopResult i ctx)).spoken =
      s.spoken ++ [⟨p.turn, s.lastRetrievalTurn, "\n\n【参考情報】: " ++ ctx⟩] := by
  simp [stepEv, hp, hc]

/-- Claim C2 (amended) witness: in `c2State` (turn 2 already committed
and retrieving) the stale response of turn 1 is still applied. -/
theorem nonempty_result_always_applied_witness :
    (stepEv true c2State (SessionEv.deliverStopResult 0 "ctx")).spoken =
      c2State.spoken ++ [⟨1, 2, "\n\n【参考情報】: " ++ "ctx"⟩] :=
  nonempty_result_always_applied c2State 0 "ctx" ⟨1, "alpha"⟩
    (by decide) (by decide)

end HeygenAvatar
